import Mathlib

/-!
Shallow embedding of the configuration/preset persistence core of `app.py`
(a Gradio text-to-speech front end).

Embedded functions: `load_config`, `save_config`, the favorites update inside
`generar_audio` (called `recordUse` here, as in the design document),
`guardar_preset`, `cargar_preset`, and the configuration-touching skeleton of
`generar_audio` itself.

Modelling decisions:
* JSON values are an inductive `Json`; numbers are rationals, since the Python
  code performs no floating-point arithmetic on any stored number (values flow
  through unchanged, and `float(x)` on an already-numeric slider value is the
  identity).  JSON objects are insertion-ordered association lists, exactly
  like Python dicts: assignment to an existing key replaces the value in
  place, assignment to a new key appends at the end.
* The configuration file is a `Storage` state: `missing` (the file does not
  exist, `open` raises `FileNotFoundError`), `malformed` (the file exists but
  `json.load` raises `JSONDecodeError`), or `content j` (the file parses as
  the JSON value `j`).  `json.dump` followed by `json.load` reproduces the
  dumped value for the documents at hand, so `save_config` stores the value
  itself.
* Python operations that would raise an uncaught exception are modelled by
  `Option`/`none`; exceptions that the source catches are modelled by the
  branch the handler takes.
* `pyStrip` stands for the Python `str.strip()` method and `pySubstr` for
  the Python `in` substring operator; both are written over character lists so that concrete
  witnesses evaluate inside the kernel.
-/

inductive Json where
  | null : Json
  | bool (b : Bool) : Json
  | num (q : ℚ) : Json
  | str (s : String) : Json
  | arr (elems : List Json) : Json
  | obj (entries : List (String × Json)) : Json

mutual

/-- Structural equality of JSON values (the Python `==` on parsed JSON data). -/
def Json.beq : Json → Json → Bool
  | Json.null, Json.null => true
  | Json.bool a, Json.bool b => a == b
  | Json.num a, Json.num b => a == b
  | Json.str a, Json.str b => a == b
  | Json.arr xs, Json.arr ys => Json.beqArr xs ys
  | Json.obj xs, Json.obj ys => Json.beqObj xs ys
  | _, _ => false

def Json.beqArr : List Json → List Json → Bool
  | [], [] => true
  | x :: xs, y :: ys => Json.beq x y && Json.beqArr xs ys
  | _, _ => false

def Json.beqObj : List (String × Json) → List (String × Json) → Bool
  | [], [] => true
  | (k, v) :: xs, (k2, v2) :: ys => k == k2 && Json.beq v v2 && Json.beqObj xs ys
  | _, _ => false

end

theorem Json.beqArr_iff_of (xs ys : List Json)
    (h : ∀ x ∈ xs, ∀ b, Json.beq x b = true ↔ x = b) :
    Json.beqArr xs ys = true ↔ xs = ys := by
  induction xs generalizing ys with
  | nil => cases ys <;> simp [Json.beqArr]
  | cons x xs ihx =>
    cases ys with
    | nil => simp [Json.beqArr]
    | cons y ys =>
      have hx := h x (List.mem_cons_self x xs) y
      have hrest : ∀ z ∈ xs, ∀ b, Json.beq z b = true ↔ z = b :=
        fun z hz b => h z (List.mem_cons_of_mem x hz) b
      simp only [Json.beqArr, Bool.and_eq_true, hx, ihx ys hrest, List.cons.injEq]

theorem Json.beqObj_iff_of (xs ys : List (String × Json))
    (h : ∀ p ∈ xs, ∀ b, Json.beq p.2 b = true ↔ p.2 = b) :
    Json.beqObj xs ys = true ↔ xs = ys := by
  induction xs generalizing ys with
  | nil => cases ys <;> simp [Json.beqObj]
  | cons x xs ihx =>
    cases ys with
    | nil => simp [Json.beqObj]
    | cons y ys =>
      obtain ⟨k, v⟩ := x
      obtain ⟨k2, v2⟩ := y
      have hv := h (k, v) (List.mem_cons_self _ _) v2
      have hrest : ∀ z ∈ xs, ∀ b, Json.beq z.2 b = true ↔ z.2 = b :=
        fun z hz b => h z (List.mem_cons_of_mem _ hz) b
      simp only [Json.beqObj, Bool.and_eq_true, beq_iff_eq, hv, ihx ys hrest,
        List.cons.injEq, Prod.mk.injEq]

theorem Json.beq_iff : ∀ a b : Json, Json.beq a b = true ↔ a = b := by
  intro a
  have H : ∀ n : Nat, ∀ a : Json, sizeOf a ≤ n → ∀ b : Json, Json.beq a b = true ↔ a = b := by
    intro n
    induction n with
    | zero => intro a ha; cases a <;> simp at ha
    | succ n ih =>
      intro a ha b
      cases a <;> cases b <;> simp_all [Json.beq]
      · rename_i xs ys
        apply Json.beqArr_iff_of
        intro x hx b
        apply ih
        have h1 := List.sizeOf_lt_of_mem hx
        omega
      · rename_i xs ys
        apply Json.beqObj_iff_of
        intro p hp b
        obtain ⟨k, v⟩ := p
        apply ih
        show sizeOf v ≤ n
        have h1 := List.sizeOf_lt_of_mem hp
        simp only [Prod.mk.sizeOf_spec] at h1
        omega
  exact H (sizeOf a) a le_rfl

instance : DecidableEq Json := fun a b => decidable_of_iff (Json.beq a b = true) (Json.beq_iff a b)

/-- Ordered association list standing for a Python dict with string keys. -/
abbrev JObj := List (String × Json)

/-- Python dict lookup `d[k]` / `k in d`: first (and, for genuine dicts, only)
binding of the key. -/
def jlookup : JObj → String → Option Json
  | [], _ => none
  | (k, v) :: rest, key => if k = key then some v else jlookup rest key

/-- Python dict assignment `d[k] = v`: replace in place when the key exists,
append at the end otherwise (insertion order is preserved, as in Python). -/
def jset : JObj → String → Json → JObj
  | [], key, v => [(key, v)]
  | (k, w) :: rest, key, v =>
    if k = key then (k, v) :: rest else (k, w) :: jset rest key v

/-- The Python substring test `needle in hay` for strings: `needle` occurs at
some offset of `hay` (`"" in s` is true). -/
def pySubstr (needle hay : String) : Bool :=
  (List.range (hay.data.length + 1)).any
    (fun i => List.isPrefixOf needle.data (hay.data.drop i))

/-- The Python `str.strip()` method: remove leading and trailing whitespace.  (Python
strips a slightly larger whitespace class than `Char.isWhitespace`; the two
agree on the ordinary spaces, tabs and newlines at issue here.) -/
def pyStrip (s : String) : String :=
  String.mk (((s.data.dropWhile Char.isWhitespace).reverse.dropWhile Char.isWhitespace).reverse)

/-- The fields of the built-in `"default"` preset (app.py lines 39-47). -/
def default_preset_fields : JObj :=
  [ ("speed", Json.num 1), ("volume", Json.num 1), ("pitch", Json.num 0),
    ("clarity", Json.num 0), ("style", Json.str "General"),
    ("voice", Json.str "es-MX-DaliaNeural"),
    ("format", Json.str "mp3") ]

/-- The `default_config` dict literal of `load_config` (app.py lines 27-49),
as an association list. -/
def default_obj : JObj :=
  [ ("favorites", Json.arr [Json.str "es-MX-DaliaNeural", Json.str "es-ES-AlvaroNeural"]),
    ("last_voice", Json.str "es-MX-DaliaNeural"),
    ("audio_format", Json.str "mp3"),
    ("last_settings", Json.obj
      [ ("speed", Json.num 1), ("volume", Json.num 1), ("pitch", Json.num 0),
        ("clarity", Json.num 0), ("style", Json.str "General") ]),
    ("saved_presets", Json.obj [ ("default", Json.obj default_preset_fields) ]) ]

/-- The default configuration document of `load_config`. -/
def default_config : Json := Json.obj default_obj

/-- State of the configuration file (`CONFIG_FILE`). -/
inductive Storage where
  | missing : Storage
  | malformed : Storage
  | content (j : Json) : Storage
  deriving DecidableEq

/-- `save_config` (app.py lines 59-61): overwrite the file with the serialized
document.  The old file state is irrelevant. -/
def save_config (config : Json) : Storage := Storage.content config

/-- `load_config` (app.py lines 26-56): return the parsed file content; on
`FileNotFoundError` or `JSONDecodeError`, write the default configuration and
return it.  Content that parses as JSON — whatever its shape — is returned
as-is.  The function also yields the file state after the call. -/
def load_config : Storage → Json × Storage
  | Storage.missing => (default_config, save_config default_config)
  | Storage.malformed => (default_config, save_config default_config)
  | Storage.content j => (j, Storage.content j)

/-- The favorites/last-voice update of `generar_audio` (app.py lines 184-186),
acting on the loaded configuration dict; the design document calls this step
`recordUse`.  `none` models an uncaught Python exception inside these lines
(`KeyError` when `favorites` is absent, `TypeError` when its value rejects the
list operations); the `except` handler of `generar_audio` then runs.  The `str`
and `obj` cases mirror the Python `in` operator on strings (substring test) and
dicts (key test), where the subsequent slice/concatenation raises only when
the voice was judged absent. -/
def recordUse (config : JObj) (voz : String) : Option JObj :=
  match jlookup config "favorites" with
  | some (Json.arr favs) =>
    let config1 := if Json.str voz ∈ favs then config
      else jset config "favorites" (Json.arr (Json.str voz :: favs.take 4))
    some (jset config1 "last_voice" (Json.str voz))
  | some (Json.str t) =>
    if pySubstr voz t then some (jset config "last_voice" (Json.str voz)) else none
  | some (Json.obj ps) =>
    if (jlookup ps voz).isSome then some (jset config "last_voice" (Json.str voz)) else none
  | _ => none

/-- A sequence of `recordUse` steps, one per generated audio. -/
def recordUses (config : JObj) : List String → Option JObj
  | [] => some config
  | v :: vs =>
    match recordUse config v with
    | some c1 => recordUses c1 vs
    | none => none

/-- Outcome of `guardar_preset`, abstracting its status message: the error
message for a missing name, or the success message, which interpolates the
name exactly as the caller passed it (app.py line 329 uses `nombre`, not
`nombre.strip()`). -/
inductive SaveResult where
  | invalidName : SaveResult
  | saved (nameInMessage : String) : SaveResult
  deriving DecidableEq

/-- The preset dict built by `guardar_preset` (app.py lines 317-325). -/
def preset_entry (voz : String) (velocidad intensidad tono clarity : ℚ)
    (estilo formato : String) : Json :=
  Json.obj
    [ ("voice", Json.str voz), ("speed", Json.num velocidad),
      ("volume", Json.num intensidad), ("pitch", Json.num tono),
      ("clarity", Json.num clarity), ("style", Json.str estilo),
      ("format", Json.str formato) ]

/-- `guardar_preset` (app.py lines 303-331).  On an empty or whitespace-only
name it returns the error message before reading the configuration; the HTML
rendered alongside that message still calls `load_config()`, which can
self-heal missing or corrupt storage.  Otherwise it loads, creates the
`saved_presets` dict when the key is absent, stores the entry under the
trimmed name, saves, and reports success.  `none` models an uncaught
exception (`saved_presets` present with a non-dict value, or a non-dict
document). -/
def guardar_preset (nombre voz : String) (velocidad intensidad tono clarity : ℚ)
    (estilo formato : String) (s : Storage) : Option (SaveResult × Storage) :=
  if nombre = "" ∨ pyStrip nombre = "" then
    some (SaveResult.invalidName, (load_config s).2)
  else
    match load_config s with
    | (Json.obj kvs, _) =>
      let kvs1 := if (jlookup kvs "saved_presets").isSome then kvs
        else jset kvs "saved_presets" (Json.obj [])
      match jlookup kvs1 "saved_presets" with
      | some (Json.obj ps) =>
        some (SaveResult.saved nombre,
          save_config (Json.obj (jset kvs1 "saved_presets"
            (Json.obj (jset ps (pyStrip nombre)
              (preset_entry voz velocidad intensidad tono clarity estilo formato))))))
      | _ => none
    | _ => none

/-- Outcome of `cargar_preset`: the not-found message, or the seven values it
feeds back into the UI widgets (each one defaulted when missing from the
stored entry, app.py lines 352-361). -/
inductive LoadPresetResult where
  | notFound : LoadPresetResult
  | found (voice speed volume pitch clarity style format : Json) : LoadPresetResult
  deriving DecidableEq

/-- `cargar_preset` (app.py lines 334-361).  Loads the configuration, reads
`saved_presets` with `{}` as default, answers the not-found message when the
name is not present, and otherwise returns the stored entry with per-field
defaults.  It never calls `save_config`.  `none` models an uncaught
exception; the `arr`/`str` cases mirror the Python `in` on those values, where
indexing raises only when the membership test succeeded. -/
def cargar_preset (preset_name : String) (s : Storage) : Option (LoadPresetResult × Storage) :=
  match load_config s with
  | (Json.obj kvs, s1) =>
    match (jlookup kvs "saved_presets").getD (Json.obj []) with
    | Json.obj ps =>
      match jlookup ps preset_name with
      | none => some (LoadPresetResult.notFound, s1)
      | some (Json.obj e) =>
        some (LoadPresetResult.found
          ((jlookup e "voice").getD (Json.str ""))
          ((jlookup e "speed").getD (Json.num 1))
          ((jlookup e "volume").getD (Json.num 1))
          ((jlookup e "pitch").getD (Json.num 0))
          ((jlookup e "clarity").getD (Json.num 0))
          ((jlookup e "style").getD (Json.str "General"))
          ((jlookup e "format").getD (Json.str "mp3")), s1)
      | some _ => none
    | Json.arr xs =>
      if Json.str preset_name ∈ xs then none else some (LoadPresetResult.notFound, s1)
    | Json.str t =>
      if pySubstr preset_name t then none else some (LoadPresetResult.notFound, s1)
    | _ => none
  | _ => none

/-- Result of the external synthesis call `communicator.save`, an external
collaborator supplied as an oracle. -/
inductive SynthOutcome where
  | ok : SynthOutcome
  | failed : SynthOutcome
  deriving DecidableEq

/-- The `except` handler of `generar_audio` (app.py lines 212-224): it
re-renders the favorites and preset panels, each of which calls
`load_config()` afresh, and reports failure.  No `save_config` call happens
here. -/
def exceptBranch (s : Storage) : Bool × Storage :=
  (false, (load_config (load_config s).2).2)

/-- The configuration-relevant skeleton of `generar_audio` (app.py lines
159-224).  Returns whether the happy path completed, together with the
configuration-file state after the call.  Blank text raises before the
configuration is read; a synthesis failure raises before any configuration
update; an exception inside the update itself (`recordUse` yielding `none`)
also aborts; all three land in the `except` handler.  Only the happy path
calls `save_config`. -/
def generar_audio (texto voz : String) (velocidad intensidad tono clarity : ℚ)
    (estilo formato : String) (synth : SynthOutcome) (s : Storage) : Bool × Storage :=
  if pyStrip texto = "" then exceptBranch s
  else
    match load_config s with
    | (config, s1) =>
      match synth with
      | SynthOutcome.failed => exceptBranch s1
      | SynthOutcome.ok =>
        match config with
        | Json.obj kvs =>
          match recordUse kvs voz with
          | some kvs1 =>
            let kvs2 := jset kvs1 "audio_format" (Json.str formato)
            let kvs3 := jset kvs2 "last_settings" (Json.obj
              [ ("speed", Json.num velocidad), ("volume", Json.num intensidad),
                ("pitch", Json.num tono), ("clarity", Json.num clarity),
                ("style", Json.str estilo) ])
            (true, save_config (Json.obj kvs3))
          | none => exceptBranch s1
        | _ => exceptBranch s1

/-- Modelled from the spec: the required top-level keys of a configuration
document (design document, section 3). -/
def requiredKeys : List String :=
  ["favorites", "last_voice", "audio_format", "last_settings", "saved_presets"]

/-- Modelled from the spec: a JSON value has the expected structure of a
configuration document only when it is an object carrying every required
top-level key. -/
def hasAllRequiredKeys (j : Json) : Bool :=
  match j with
  | Json.obj kvs => requiredKeys.all (fun k => (jlookup kvs k).isSome)
  | _ => false

/-- Modelled from the spec: the section-3 invariants of a configuration
document — all required keys present, `favorites` a duplicate-free list of at
most five entries, and `saved_presets` a mapping whose keys are non-empty
trimmed strings. -/
def docInvariants (j : Json) : Bool :=
  match j with
  | Json.obj kvs =>
    hasAllRequiredKeys j &&
    (match jlookup kvs "favorites" with
     | some (Json.arr favs) => decide favs.Nodup && decide (favs.length ≤ 5)
     | _ => false) &&
    (match jlookup kvs "saved_presets" with
     | some (Json.obj ps) => ps.all (fun p => pyStrip p.1 == p.1 && p.1 != "")
     | _ => false)
  | _ => false

theorem jlookup_jset_self (kvs : JObj) (k : String) (v : Json) :
    jlookup (jset kvs k v) k = some v := by
  induction kvs with
  | nil => simp [jset, jlookup]
  | cons p rest ih =>
    obtain ⟨k0, w⟩ := p
    by_cases h : k0 = k <;> simp [jset, jlookup, h, ih]

theorem jlookup_jset_ne (kvs : JObj) (k k2 : String) (v : Json) (h : k2 ≠ k) :
    jlookup (jset kvs k v) k2 = jlookup kvs k2 := by
  have hne : k ≠ k2 := fun hc => h hc.symm
  induction kvs with
  | nil => simp [jset, jlookup, hne]
  | cons p rest ih =>
    obtain ⟨k0, w⟩ := p
    by_cases h0 : k0 = k
    · subst h0
      simp [jset, jlookup, hne]
    · simp [jset, jlookup, h0, ih]

theorem jset_jset_same (kvs : JObj) (k : String) (v w : Json) :
    jset (jset kvs k v) k w = jset kvs k w := by
  induction kvs with
  | nil => simp [jset]
  | cons p rest ih =>
    obtain ⟨k0, u⟩ := p
    by_cases h : k0 = k <;> simp [jset, h, ih]

theorem recordUse_of_mem (kvs : JObj) (favs : List Json) (v : String)
    (h1 : jlookup kvs "favorites" = some (Json.arr favs)) (h2 : Json.str v ∈ favs) :
    recordUse kvs v = some (jset kvs "last_voice" (Json.str v)) := by
  unfold recordUse
  rw [h1]
  simp [h2]

theorem recordUse_of_not_mem (kvs : JObj) (favs : List Json) (v : String)
    (h1 : jlookup kvs "favorites" = some (Json.arr favs)) (h2 : Json.str v ∉ favs) :
    recordUse kvs v =
      some (jset (jset kvs "favorites" (Json.arr (Json.str v :: favs.take 4)))
        "last_voice" (Json.str v)) := by
  unfold recordUse
  rw [h1]
  simp [h2]

theorem recordUse_last_voice (kvs kvs1 : JObj) (v : String)
    (h : recordUse kvs v = some kvs1) :
    jlookup kvs1 "last_voice" = some (Json.str v) := by
  unfold recordUse at h
  cases hf : jlookup kvs "favorites" with
  | none => rw [hf] at h; exact absurd h (by simp)
  | some j =>
    rw [hf] at h
    cases j with
    | arr favs =>
      simp only [Option.some.injEq] at h
      rw [← h]
      exact jlookup_jset_self _ _ _
    | str t =>
      by_cases hp : pySubstr v t = true <;> simp [hp] at h
      rw [← h]
      exact jlookup_jset_self _ _ _
    | obj ps =>
      by_cases hp : (jlookup ps v).isSome <;> simp [hp] at h
      rw [← h]
      exact jlookup_jset_self _ _ _
    | null => exact absurd h (by simp)
    | bool b => exact absurd h (by simp)
    | num q => exact absurd h (by simp)

/-- One `recordUse` step keeps `favorites` an array without duplicates and with
at most five entries. -/
theorem recordUse_preserves_favorites (kvs : JObj) (favs : List Json) (v : String)
    (h1 : jlookup kvs "favorites" = some (Json.arr favs))
    (h2 : favs.Nodup) (h3 : favs.length ≤ 5) :
    ∃ kvs1 favs1, recordUse kvs v = some kvs1 ∧
      jlookup kvs1 "favorites" = some (Json.arr favs1) ∧
      favs1.Nodup ∧ favs1.length ≤ 5 := by
  by_cases hm : Json.str v ∈ favs
  · refine ⟨jset kvs "last_voice" (Json.str v), favs, recordUse_of_mem kvs favs v h1 hm, ?_, h2, h3⟩
    rw [jlookup_jset_ne kvs "last_voice" "favorites" (Json.str v) (by decide)]
    exact h1
  · refine ⟨jset (jset kvs "favorites" (Json.arr (Json.str v :: favs.take 4)))
      "last_voice" (Json.str v), Json.str v :: favs.take 4,
      recordUse_of_not_mem kvs favs v h1 hm, ?_, ?_, ?_⟩
    · rw [jlookup_jset_ne _ "last_voice" "favorites" (Json.str v) (by decide)]
      exact jlookup_jset_self _ _ _
    · refine List.nodup_cons.mpr ⟨fun hc => hm (List.take_subset 4 favs hc), ?_⟩
      exact h2.sublist (List.take_sublist 4 favs)
    · have := List.length_take_le 4 favs
      simp only [List.length_cons]
      omega

/-- Claim C1, counterexample: a configuration file holding `[]` — valid JSON
without the expected document structure — is returned verbatim by
`load_config`, which neither returns the default document nor persists it. -/
theorem load_config_not_default_on_wrong_structure :
    hasAllRequiredKeys (Json.arr []) = false ∧
    (load_config (Storage.content (Json.arr []))).1 = Json.arr [] ∧
    (load_config (Storage.content (Json.arr []))).1 ≠ default_config ∧
    (load_config (Storage.content (Json.arr []))).2 ≠ save_config default_config :=
  ⟨rfl, rfl, by decide, by decide⟩

/-- Claim C1 (amended): when the configuration file is missing or its content
fails to parse as JSON, `load_config` returns the documented default
document, persists it, and loading again with nothing in between returns the
same document.  (The model is a total function: no error reaches the
caller.)  Content that parses as JSON but lacks the expected structure is
instead returned as-is. -/
theorem load_config_defaults_on_unreadable (s : Storage)
    (h : s = Storage.missing ∨ s = Storage.malformed) :
    load_config s = (default_config, save_config default_config) ∧
    (load_config (load_config s).2).1 = (load_config s).1 := by
  rcases h with h | h <;> subst h <;> exact ⟨rfl, rfl⟩

theorem load_config_defaults_on_unreadable_witness :
    (Storage.missing = Storage.missing ∨ Storage.missing = Storage.malformed) ∧
    (load_config Storage.missing = (default_config, save_config default_config) ∧
     (load_config (load_config Storage.missing).2).1 = (load_config Storage.missing).1) :=
  ⟨Or.inl rfl, load_config_defaults_on_unreadable Storage.missing (Or.inl rfl)⟩

/-- Claim C2, counterexample: a configuration file holding `{}` parses as
JSON, so `load_config` returns it verbatim; the returned document lacks every
required top-level key — no defaults are filled in. -/
theorem load_config_returns_partial_document :
    (load_config (Storage.content (Json.obj []))).1 = Json.obj [] ∧
    hasAllRequiredKeys (Json.obj []) = false ∧
    jlookup ([] : JObj) "favorites" = none :=
  ⟨rfl, rfl, rfl⟩

/-- Claim C2 (amended): the document returned by `load_config` contains all
required top-level keys when the storage was missing or unparseable (it is
then the full default document); stored content that parses as JSON is
returned verbatim and may lack required keys. -/
theorem load_config_keys_amended (s : Storage) (j : Json)
    (h : s = Storage.missing ∨ s = Storage.malformed) :
    (load_config s).1 = default_config ∧
    hasAllRequiredKeys (load_config s).1 = true ∧
    (load_config (Storage.content j)).1 = j := by
  rcases h with h | h <;> subst h <;> exact ⟨rfl, by decide, rfl⟩

theorem load_config_keys_amended_witness :
    (Storage.missing = Storage.missing ∨ Storage.missing = Storage.malformed) ∧
    ((load_config Storage.missing).1 = default_config ∧
     hasAllRequiredKeys (load_config Storage.missing).1 = true ∧
     (load_config (Storage.content (Json.arr []))).1 = Json.arr []) :=
  ⟨Or.inl rfl, load_config_keys_amended Storage.missing (Json.arr []) (Or.inl rfl)⟩

/-- Claim C7 (confirmed): for any document satisfying the section-3
invariants, `save_config` followed by `load_config` yields the identical
document (deep equality is equality of the modelled JSON values). -/
theorem save_load_roundtrip (d : Json) (_h : docInvariants d = true) :
    load_config (save_config d) = (d, Storage.content d) := rfl

theorem save_load_roundtrip_witness :
    docInvariants default_config = true ∧
    load_config (save_config default_config) = (default_config, Storage.content default_config) :=
  ⟨by decide, save_load_roundtrip default_config (by decide)⟩

theorem pyStrip_empty : pyStrip "" = "" := rfl

/-- A successful save: with a non-blank name, `guardar_preset` stores the
entry under the stripped name inside `saved_presets` (creating that mapping
when absent) and reports success carrying the name as passed. -/
theorem guardar_preset_success (kvs ps : JObj) (nombre voz : String)
    (velocidad intensidad tono clarity : ℚ) (estilo formato : String)
    (hps : jlookup kvs "saved_presets" = some (Json.obj ps) ∨
      (jlookup kvs "saved_presets" = none ∧ ps = []))
    (hname : pyStrip nombre ≠ "") :
    guardar_preset nombre voz velocidad intensidad tono clarity estilo formato
        (Storage.content (Json.obj kvs)) =
      some (SaveResult.saved nombre, Storage.content (Json.obj (jset kvs "saved_presets"
        (Json.obj (jset ps (pyStrip nombre)
          (preset_entry voz velocidad intensidad tono clarity estilo formato)))))) := by
  have hne : ¬(nombre = "" ∨ pyStrip nombre = "") := by
    rintro (h | h)
    · subst h
      exact hname rfl
    · exact hname h
  unfold guardar_preset
  rw [if_neg hne]
  rcases hps with hp | ⟨hp, hp2⟩
  · simp only [load_config, hp, Option.isSome_some, if_true, save_config]
  · subst hp2
    simp only [load_config, hp, Option.isSome_none, Bool.false_eq_true, if_false,
      jlookup_jset_self, save_config, jset_jset_same]

/-- Claim C3 (corrected), counterexample: saving under the name
`" My Preset "` succeeds, but the success result carries the name exactly as
passed — `" My Preset "` — not the trimmed `"My Preset"` the claim
requires. -/
theorem guardar_preset_untrimmed_result_counterexample :
    (guardar_preset " My Preset " "es-MX-DaliaNeural" 1 1 0 0 "General" "mp3"
        (Storage.content default_config)).map (fun r => r.1) =
      some (SaveResult.saved " My Preset ") ∧
    pyStrip " My Preset " = "My Preset" ∧
    SaveResult.saved " My Preset " ≠ SaveResult.saved (pyStrip " My Preset ") := by
  refine ⟨?_, by decide, by decide⟩
  unfold default_config
  rw [guardar_preset_success default_obj
    [("default", Json.obj
      [ ("speed", Json.num 1), ("volume", Json.num 1), ("pitch", Json.num 0),
        ("clarity", Json.num 0), ("style", Json.str "General"),
        ("voice", Json.str "es-MX-DaliaNeural"), ("format", Json.str "mp3") ])]
    " My Preset " "es-MX-DaliaNeural" 1 1 0 0 "General" "mp3"
    (Or.inl rfl) (by decide)]
  rfl

/-- Claim C3 (amended): `guardar_preset` fails with the invalid-name result
exactly when the name strips to the empty string, leaving the stored document
unchanged; otherwise it inserts or overwrites `saved_presets[strip(name)]`
with the entry and returns the updated document together with a success
result carrying the name as passed (not stripped). -/
theorem guardar_preset_amended (kvs ps : JObj) (nombre voz : String)
    (velocidad intensidad tono clarity : ℚ) (estilo formato : String)
    (hps : jlookup kvs "saved_presets" = some (Json.obj ps) ∨
      (jlookup kvs "saved_presets" = none ∧ ps = [])) :
    (pyStrip nombre = "" →
      guardar_preset nombre voz velocidad intensidad tono clarity estilo formato
        (Storage.content (Json.obj kvs)) =
      some (SaveResult.invalidName, Storage.content (Json.obj kvs))) ∧
    (pyStrip nombre ≠ "" →
      guardar_preset nombre voz velocidad intensidad tono clarity estilo formato
        (Storage.content (Json.obj kvs)) =
      some (SaveResult.saved nombre, Storage.content (Json.obj (jset kvs "saved_presets"
        (Json.obj (jset ps (pyStrip nombre)
          (preset_entry voz velocidad intensidad tono clarity estilo formato))))))) := by
  constructor
  · intro htrim
    unfold guardar_preset
    rw [if_pos (Or.inr htrim)]
    rfl
  · intro hname
    exact guardar_preset_success kvs ps nombre voz velocidad intensidad tono clarity
      estilo formato hps hname

theorem guardar_preset_amended_witness :
    (jlookup default_obj "saved_presets" = some (Json.obj
      [("default", Json.obj
        [ ("speed", Json.num 1), ("volume", Json.num 1), ("pitch", Json.num 0),
          ("clarity", Json.num 0), ("style", Json.str "General"),
          ("voice", Json.str "es-MX-DaliaNeural"), ("format", Json.str "mp3") ])]) ∨
     (jlookup default_obj "saved_presets" = none ∧
      ([("default", Json.obj
        [ ("speed", Json.num 1), ("volume", Json.num 1), ("pitch", Json.num 0),
          ("clarity", Json.num 0), ("style", Json.str "General"),
          ("voice", Json.str "es-MX-DaliaNeural"), ("format", Json.str "mp3") ])] : JObj) = [])) ∧
    ((pyStrip "   " = "" →
      guardar_preset "   " "v" 1 1 0 0 "General" "mp3" (Storage.content (Json.obj default_obj)) =
        some (SaveResult.invalidName, Storage.content (Json.obj default_obj))) ∧
     (pyStrip "   " ≠ "" →
      guardar_preset "   " "v" 1 1 0 0 "General" "mp3" (Storage.content (Json.obj default_obj)) =
        some (SaveResult.saved "   ", Storage.content (Json.obj (jset default_obj "saved_presets"
          (Json.obj (jset [("default", Json.obj
            [ ("speed", Json.num 1), ("volume", Json.num 1), ("pitch", Json.num 0),
              ("clarity", Json.num 0), ("style", Json.str "General"),
              ("voice", Json.str "es-MX-DaliaNeural"), ("format", Json.str "mp3") ])]
            (pyStrip "   ") (preset_entry "v" 1 1 0 0 "General" "mp3")))))))) :=
  ⟨Or.inl rfl, guardar_preset_amended default_obj
    [("default", Json.obj
      [ ("speed", Json.num 1), ("volume", Json.num 1), ("pitch", Json.num 0),
        ("clarity", Json.num 0), ("style", Json.str "General"),
        ("voice", Json.str "es-MX-DaliaNeural"), ("format", Json.str "mp3") ])]
    "   " "v" 1 1 0 0 "General" "mp3" (Or.inl rfl)⟩

/-- Claim C9 (confirmed): a successful `guardar_preset` changes only the
`saved_presets` mapping — `favorites`, `last_voice`, `audio_format` and
`last_settings` retain their previous lookups — and it succeeds even on a
document lacking the `saved_presets` key, creating the mapping before
inserting. -/
theorem guardar_preset_frame (kvs ps : JObj) (nombre voz : String)
    (velocidad intensidad tono clarity : ℚ) (estilo formato : String)
    (hps : jlookup kvs "saved_presets" = some (Json.obj ps) ∨
      (jlookup kvs "saved_presets" = none ∧ ps = []))
    (hname : pyStrip nombre ≠ "") :
    guardar_preset nombre voz velocidad intensidad tono clarity estilo formato
        (Storage.content (Json.obj kvs)) =
      some (SaveResult.saved nombre, Storage.content (Json.obj (jset kvs "saved_presets"
        (Json.obj (jset ps (pyStrip nombre)
          (preset_entry voz velocidad intensidad tono clarity estilo formato)))))) ∧
    jlookup (jset kvs "saved_presets" (Json.obj (jset ps (pyStrip nombre)
        (preset_entry voz velocidad intensidad tono clarity estilo formato)))) "favorites" =
      jlookup kvs "favorites" ∧
    jlookup (jset kvs "saved_presets" (Json.obj (jset ps (pyStrip nombre)
        (preset_entry voz velocidad intensidad tono clarity estilo formato)))) "last_voice" =
      jlookup kvs "last_voice" ∧
    jlookup (jset kvs "saved_presets" (Json.obj (jset ps (pyStrip nombre)
        (preset_entry voz velocidad intensidad tono clarity estilo formato)))) "audio_format" =
      jlookup kvs "audio_format" ∧
    jlookup (jset kvs "saved_presets" (Json.obj (jset ps (pyStrip nombre)
        (preset_entry voz velocidad intensidad tono clarity estilo formato)))) "last_settings" =
      jlookup kvs "last_settings" ∧
    jlookup (jset kvs "saved_presets" (Json.obj (jset ps (pyStrip nombre)
        (preset_entry voz velocidad intensidad tono clarity estilo formato)))) "saved_presets" =
      some (Json.obj (jset ps (pyStrip nombre)
        (preset_entry voz velocidad intensidad tono clarity estilo formato))) :=
  ⟨guardar_preset_success kvs ps nombre voz velocidad intensidad tono clarity
      estilo formato hps hname,
   jlookup_jset_ne kvs "saved_presets" "favorites" _ (by decide),
   jlookup_jset_ne kvs "saved_presets" "last_voice" _ (by decide),
   jlookup_jset_ne kvs "saved_presets" "audio_format" _ (by decide),
   jlookup_jset_ne kvs "saved_presets" "last_settings" _ (by decide),
   jlookup_jset_self kvs "saved_presets" _⟩

theorem guardar_preset_frame_witness :
    ((jlookup [("favorites", Json.arr [])] "saved_presets" =
        some (Json.obj ([] : JObj)) ∨
      (jlookup [("favorites", Json.arr [])] "saved_presets" = none ∧ ([] : JObj) = [])) ∧
     pyStrip "p" ≠ "") ∧
    guardar_preset "p" "v" 1 1 0 0 "General" "mp3"
        (Storage.content (Json.obj [("favorites", Json.arr [])])) =
      some (SaveResult.saved "p", Storage.content (Json.obj
        (jset [("favorites", Json.arr [])] "saved_presets"
          (Json.obj (jset [] (pyStrip "p") (preset_entry "v" 1 1 0 0 "General" "mp3")))))) :=
  ⟨⟨Or.inr ⟨rfl, rfl⟩, by decide⟩,
   (guardar_preset_frame [("favorites", Json.arr [])] [] "p" "v" 1 1 0 0 "General" "mp3"
     (Or.inr ⟨rfl, rfl⟩) (by decide)).1⟩

/-- Claim C6 (confirmed): `cargar_preset` answers not-found exactly when the
name is not a key of `saved_presets` (in particular whenever that mapping is
absent); when the name is found with an entry object, it returns the stored
entry without modifying storage, filling each missing field with the
documented default (voice `""`, speed `1.0`, volume `1.0`, pitch `0.0`,
clarity `0`, style `"General"`, format `"mp3"`). -/
theorem cargar_preset_spec (kvs ps e : JObj) (name : String)
    (hps : jlookup kvs "saved_presets" = some (Json.obj ps) ∨
      (jlookup kvs "saved_presets" = none ∧ ps = [])) :
    (jlookup ps name = none →
      cargar_preset name (Storage.content (Json.obj kvs)) =
        some (LoadPresetResult.notFound, Storage.content (Json.obj kvs))) ∧
    (jlookup ps name = some (Json.obj e) →
      cargar_preset name (Storage.content (Json.obj kvs)) =
        some (LoadPresetResult.found
          ((jlookup e "voice").getD (Json.str ""))
          ((jlookup e "speed").getD (Json.num 1))
          ((jlookup e "volume").getD (Json.num 1))
          ((jlookup e "pitch").getD (Json.num 0))
          ((jlookup e "clarity").getD (Json.num 0))
          ((jlookup e "style").getD (Json.str "General"))
          ((jlookup e "format").getD (Json.str "mp3")),
          Storage.content (Json.obj kvs))) := by
  rcases hps with hp | ⟨hp, hp2⟩
  · constructor
    · intro hn
      unfold cargar_preset
      simp only [load_config, hp, Option.getD_some, hn]
    · intro hf
      unfold cargar_preset
      simp only [load_config, hp, Option.getD_some, hf]
  · subst hp2
    constructor
    · intro hn
      unfold cargar_preset
      simp only [load_config, hp, Option.getD_none, jlookup]
    · intro hf
      exact Option.noConfusion hf

theorem cargar_preset_spec_witness :
    (jlookup default_obj "saved_presets" =
        some (Json.obj [("default", Json.obj default_preset_fields)]) ∨
      (jlookup default_obj "saved_presets" = none ∧
        ([("default", Json.obj default_preset_fields)] : JObj) = [])) ∧
    ((jlookup [("default", Json.obj default_preset_fields)] "default" = none →
      cargar_preset "default" (Storage.content (Json.obj default_obj)) =
        some (LoadPresetResult.notFound, Storage.content (Json.obj default_obj))) ∧
     (jlookup [("default", Json.obj default_preset_fields)] "default" =
        some (Json.obj default_preset_fields) →
      cargar_preset "default" (Storage.content (Json.obj default_obj)) =
        some (LoadPresetResult.found
          ((jlookup default_preset_fields "voice").getD (Json.str ""))
          ((jlookup default_preset_fields "speed").getD (Json.num 1))
          ((jlookup default_preset_fields "volume").getD (Json.num 1))
          ((jlookup default_preset_fields "pitch").getD (Json.num 0))
          ((jlookup default_preset_fields "clarity").getD (Json.num 0))
          ((jlookup default_preset_fields "style").getD (Json.str "General"))
          ((jlookup default_preset_fields "format").getD (Json.str "mp3")),
          Storage.content (Json.obj default_obj)))) :=
  ⟨Or.inl rfl,
   cargar_preset_spec default_obj [("default", Json.obj default_preset_fields)]
     default_preset_fields "default" (Or.inl rfl)⟩

/-- Claim C5 (confirmed): when the used voice is already among `favorites`,
`recordUse` leaves the favorites sequence exactly as it was (no reordering,
no insertion) and only sets `last_voice` to the voice; and for any `recordUse`
step that completes, `last_voice` is set to the used voice whether or not it
was already a favorite. -/
theorem recordUse_existing_favorite (kvs kvsW : JObj) (favs : List Json) (v w : String)
    (h1 : jlookup kvs "favorites" = some (Json.arr favs))
    (h2 : Json.str v ∈ favs)
    (h3 : recordUse kvs w = some kvsW) :
    recordUse kvs v = some (jset kvs "last_voice" (Json.str v)) ∧
    jlookup (jset kvs "last_voice" (Json.str v)) "favorites" = some (Json.arr favs) ∧
    jlookup (jset kvs "last_voice" (Json.str v)) "last_voice" = some (Json.str v) ∧
    jlookup kvsW "last_voice" = some (Json.str w) := by
  refine ⟨recordUse_of_mem kvs favs v h1 h2, ?_,
    jlookup_jset_self kvs "last_voice" (Json.str v),
    recordUse_last_voice kvs kvsW w h3⟩
  rw [jlookup_jset_ne kvs "last_voice" "favorites" (Json.str v) (by decide)]
  exact h1

theorem recordUse_existing_favorite_witness :
    (jlookup default_obj "favorites" =
        some (Json.arr [Json.str "es-MX-DaliaNeural", Json.str "es-ES-AlvaroNeural"]) ∧
     Json.str "es-MX-DaliaNeural" ∈
        [Json.str "es-MX-DaliaNeural", Json.str "es-ES-AlvaroNeural"] ∧
     recordUse default_obj "es-ES-AlvaroNeural" =
        some (jset default_obj "last_voice" (Json.str "es-ES-AlvaroNeural"))) ∧
    (recordUse default_obj "es-MX-DaliaNeural" =
        some (jset default_obj "last_voice" (Json.str "es-MX-DaliaNeural")) ∧
     jlookup (jset default_obj "last_voice" (Json.str "es-MX-DaliaNeural")) "favorites" =
        some (Json.arr [Json.str "es-MX-DaliaNeural", Json.str "es-ES-AlvaroNeural"]) ∧
     jlookup (jset default_obj "last_voice" (Json.str "es-MX-DaliaNeural")) "last_voice" =
        some (Json.str "es-MX-DaliaNeural") ∧
     jlookup (jset default_obj "last_voice" (Json.str "es-ES-AlvaroNeural")) "last_voice" =
        some (Json.str "es-ES-AlvaroNeural")) :=
  ⟨⟨rfl, by decide, by decide⟩,
   recordUse_existing_favorite default_obj
     (jset default_obj "last_voice" (Json.str "es-ES-AlvaroNeural"))
     [Json.str "es-MX-DaliaNeural", Json.str "es-ES-AlvaroNeural"]
     "es-MX-DaliaNeural" "es-ES-AlvaroNeural" rfl (by decide) (by decide)⟩

/-- Claim C10 (confirmed): when audio generation fails before synthesis
completes — blank (empty or whitespace-only) input text, which is rejected up
front, or a failing synthesis call — a stored configuration document is left
exactly as it was: the favorites/last_voice/audio_format/last_settings write
happens only after the synthesis collaborator succeeded. -/
theorem generar_audio_no_write_on_failure (doc : Json) (texto voz : String)
    (velocidad intensidad tono clarity : ℚ) (estilo formato : String)
    (synth : SynthOutcome)
    (h : pyStrip texto = "" ∨ synth = SynthOutcome.failed) :
    generar_audio texto voz velocidad intensidad tono clarity estilo formato synth
      (Storage.content doc) = (false, Storage.content doc) := by
  rcases h with h | h
  · unfold generar_audio
    rw [if_pos h]
    rfl
  · subst h
    unfold generar_audio
    by_cases ht : pyStrip texto = ""
    · rw [if_pos ht]
      rfl
    · rw [if_neg ht]
      rfl

theorem generar_audio_no_write_on_failure_witness :
    (pyStrip "   " = "" ∨ SynthOutcome.ok = SynthOutcome.failed) ∧
    (pyStrip "hola" = "" ∨ SynthOutcome.failed = SynthOutcome.failed) ∧
    generar_audio "   " "v" 1 1 0 0 "General" "mp3" SynthOutcome.ok
      (Storage.content default_config) = (false, Storage.content default_config) ∧
    generar_audio "hola" "v" 1 1 0 0 "General" "mp3" SynthOutcome.failed
      (Storage.content default_config) = (false, Storage.content default_config) :=
  ⟨Or.inl (by decide), Or.inr rfl,
   generar_audio_no_write_on_failure default_config "   " "v" 1 1 0 0 "General" "mp3"
     SynthOutcome.ok (Or.inl (by decide)),
   generar_audio_no_write_on_failure default_config "hola" "v" 1 1 0 0 "General" "mp3"
     SynthOutcome.failed (Or.inr rfl)⟩

/-- Claim C4 (confirmed): along any sequence of `recordUse` steps starting
from the default document, every step succeeds and the `favorites` list never
holds a duplicate and never exceeds five entries. -/
theorem recordUses_favorites_invariant (vs : List String) :
    ∃ kvs1 favs1, recordUses default_obj vs = some kvs1 ∧
      jlookup kvs1 "favorites" = some (Json.arr favs1) ∧
      favs1.Nodup ∧ favs1.length ≤ 5 := by
  have H : ∀ vs : List String, ∀ kvs favs, jlookup kvs "favorites" = some (Json.arr favs) →
      favs.Nodup → favs.length ≤ 5 →
      ∃ kvs1 favs1, recordUses kvs vs = some kvs1 ∧
        jlookup kvs1 "favorites" = some (Json.arr favs1) ∧
        favs1.Nodup ∧ favs1.length ≤ 5 := by
    intro vs
    induction vs with
    | nil =>
      intro kvs favs h1 h2 h3
      exact ⟨kvs, favs, rfl, h1, h2, h3⟩
    | cons v vs ih =>
      intro kvs favs h1 h2 h3
      obtain ⟨kvs1, favs1, hr, hl, hn, hlen⟩ := recordUse_preserves_favorites kvs favs v h1 h2 h3
      obtain ⟨kvs2, favs2, hr2, hl2, hn2, hlen2⟩ := ih kvs1 favs1 hl hn hlen
      refine ⟨kvs2, favs2, ?_, hl2, hn2, hlen2⟩
      simp only [recordUses, hr, hr2]
  exact H vs default_obj [Json.str "es-MX-DaliaNeural", Json.str "es-ES-AlvaroNeural"]
    rfl (by decide) (by decide)

/-- The entries of the default document other than `favorites` and
`last_voice`; `recordUse` never touches them. -/
def default_tail : JObj :=
  [ ("audio_format", Json.str "mp3"),
    ("last_settings", Json.obj
      [ ("speed", Json.num 1), ("volume", Json.num 1), ("pitch", Json.num 0),
        ("clarity", Json.num 0), ("style", Json.str "General") ]),
    ("saved_presets", Json.obj [ ("default", Json.obj default_preset_fields) ]) ]

theorem recordUses_cons_some (kvs kvs1 : JObj) (v : String) (vs : List String)
    (h : recordUse kvs v = some kvs1) :
    recordUses kvs (v :: vs) = recordUses kvs1 vs := by
  simp only [recordUses, h]

/-- Claim C8 (confirmed): starting from the default document, six `recordUse`
steps with six pairwise-distinct voices, none of them among the default
favorites, leave a `favorites` list of length exactly five holding the five
most recently introduced voices in most-recent-first order; the first (and
oldest) of the six is evicted.  Each absent voice is prepended and the list
truncated to its first five entries. -/
theorem recordUses_six_new_voices (v1 v2 v3 v4 v5 v6 : String)
    (h : (v2 ≠ v1 ∧ v3 ≠ v1 ∧ v3 ≠ v2 ∧ v4 ≠ v1 ∧ v4 ≠ v2 ∧ v4 ≠ v3 ∧
          v5 ≠ v1 ∧ v5 ≠ v2 ∧ v5 ≠ v3 ∧ v5 ≠ v4 ∧
          v6 ≠ v1 ∧ v6 ≠ v2 ∧ v6 ≠ v3 ∧ v6 ≠ v4 ∧ v6 ≠ v5) ∧
         (∀ v ∈ [v1, v2, v3, v4, v5, v6],
            v ≠ "es-MX-DaliaNeural" ∧ v ≠ "es-ES-AlvaroNeural")) :
    recordUses default_obj [v1, v2, v3, v4, v5, v6] =
      some (("favorites", Json.arr
              [Json.str v6, Json.str v5, Json.str v4, Json.str v3, Json.str v2]) ::
            ("last_voice", Json.str v6) :: default_tail) ∧
    [Json.str v6, Json.str v5, Json.str v4, Json.str v3, Json.str v2].length = 5 := by
  obtain ⟨⟨h21, h31, h32, h41, h42, h43, h51, h52, h53, h54,
    h61, h62, h63, h64, h65⟩, hseed⟩ := h
  obtain ⟨hA1, hB1⟩ := hseed v1 (by simp)
  obtain ⟨hA2, hB2⟩ := hseed v2 (by simp)
  obtain ⟨hA3, hB3⟩ := hseed v3 (by simp)
  obtain ⟨hA4, hB4⟩ := hseed v4 (by simp)
  obtain ⟨hA5, hB5⟩ := hseed v5 (by simp)
  obtain ⟨hA6, hB6⟩ := hseed v6 (by simp)
  have e1 : recordUse default_obj v1 =
      some (("favorites", Json.arr
              [Json.str v1, Json.str "es-MX-DaliaNeural", Json.str "es-ES-AlvaroNeural"]) ::
            ("last_voice", Json.str v1) :: default_tail) := by
    rw [recordUse_of_not_mem default_obj
      [Json.str "es-MX-DaliaNeural", Json.str "es-ES-AlvaroNeural"] v1 rfl
      (by simp [hA1, hB1])]
    rfl
  have e2 : recordUse
      (("favorites", Json.arr
         [Json.str v1, Json.str "es-MX-DaliaNeural", Json.str "es-ES-AlvaroNeural"]) ::
       ("last_voice", Json.str v1) :: default_tail) v2 =
      some (("favorites", Json.arr
              [Json.str v2, Json.str v1, Json.str "es-MX-DaliaNeural",
               Json.str "es-ES-AlvaroNeural"]) ::
            ("last_voice", Json.str v2) :: default_tail) := by
    rw [recordUse_of_not_mem
      (("favorites", Json.arr
         [Json.str v1, Json.str "es-MX-DaliaNeural", Json.str "es-ES-AlvaroNeural"]) ::
       ("last_voice", Json.str v1) :: default_tail)
      [Json.str v1, Json.str "es-MX-DaliaNeural", Json.str "es-ES-AlvaroNeural"] v2 rfl
      (by simp [h21, hA2, hB2])]
    rfl
  have e3 : recordUse
      (("favorites", Json.arr
         [Json.str v2, Json.str v1, Json.str "es-MX-DaliaNeural",
          Json.str "es-ES-AlvaroNeural"]) ::
       ("last_voice", Json.str v2) :: default_tail) v3 =
      some (("favorites", Json.arr
              [Json.str v3, Json.str v2, Json.str v1, Json.str "es-MX-DaliaNeural",
               Json.str "es-ES-AlvaroNeural"]) ::
            ("last_voice", Json.str v3) :: default_tail) := by
    rw [recordUse_of_not_mem
      (("favorites", Json.arr
         [Json.str v2, Json.str v1, Json.str "es-MX-DaliaNeural",
          Json.str "es-ES-AlvaroNeural"]) ::
       ("last_voice", Json.str v2) :: default_tail)
      [Json.str v2, Json.str v1, Json.str "es-MX-DaliaNeural",
       Json.str "es-ES-AlvaroNeural"] v3 rfl
      (by simp [h32, h31, hA3, hB3])]
    rfl
  have e4 : recordUse
      (("favorites", Json.arr
         [Json.str v3, Json.str v2, Json.str v1, Json.str "es-MX-DaliaNeural",
          Json.str "es-ES-AlvaroNeural"]) ::
       ("last_voice", Json.str v3) :: default_tail) v4 =
      some (("favorites", Json.arr
              [Json.str v4, Json.str v3, Json.str v2, Json.str v1,
               Json.str "es-MX-DaliaNeural"]) ::
            ("last_voice", Json.str v4) :: default_tail) := by
    rw [recordUse_of_not_mem
      (("favorites", Json.arr
         [Json.str v3, Json.str v2, Json.str v1, Json.str "es-MX-DaliaNeural",
          Json.str "es-ES-AlvaroNeural"]) ::
       ("last_voice", Json.str v3) :: default_tail)
      [Json.str v3, Json.str v2, Json.str v1, Json.str "es-MX-DaliaNeural",
       Json.str "es-ES-AlvaroNeural"] v4 rfl
      (by simp [h43, h42, h41, hA4, hB4])]
    rfl
  have e5 : recordUse
      (("favorites", Json.arr
         [Json.str v4, Json.str v3, Json.str v2, Json.str v1,
          Json.str "es-MX-DaliaNeural"]) ::
       ("last_voice", Json.str v4) :: default_tail) v5 =
      some (("favorites", Json.arr
              [Json.str v5, Json.str v4, Json.str v3, Json.str v2, Json.str v1]) ::
            ("last_voice", Json.str v5) :: default_tail) := by
    rw [recordUse_of_not_mem
      (("favorites", Json.arr
         [Json.str v4, Json.str v3, Json.str v2, Json.str v1,
          Json.str "es-MX-DaliaNeural"]) ::
       ("last_voice", Json.str v4) :: default_tail)
      [Json.str v4, Json.str v3, Json.str v2, Json.str v1,
       Json.str "es-MX-DaliaNeural"] v5 rfl
      (by simp [h54, h53, h52, h51, hA5])]
    rfl
  have e6 : recordUse
      (("favorites", Json.arr
         [Json.str v5, Json.str v4, Json.str v3, Json.str v2, Json.str v1]) ::
       ("last_voice", Json.str v5) :: default_tail) v6 =
      some (("favorites", Json.arr
              [Json.str v6, Json.str v5, Json.str v4, Json.str v3, Json.str v2]) ::
            ("last_voice", Json.str v6) :: default_tail) := by
    rw [recordUse_of_not_mem
      (("favorites", Json.arr
         [Json.str v5, Json.str v4, Json.str v3, Json.str v2, Json.str v1]) ::
       ("last_voice", Json.str v5) :: default_tail)
      [Json.str v5, Json.str v4, Json.str v3, Json.str v2, Json.str v1] v6 rfl
      (by simp [h65, h64, h63, h62, h61])]
    rfl
  refine ⟨?_, rfl⟩
  rw [recordUses_cons_some _ _ _ _ e1, recordUses_cons_some _ _ _ _ e2,
    recordUses_cons_some _ _ _ _ e3, recordUses_cons_some _ _ _ _ e4,
    recordUses_cons_some _ _ _ _ e5, recordUses_cons_some _ _ _ _ e6]
  rfl

theorem recordUses_six_new_voices_witness :
    ((("vb" ≠ "va" ∧ "vc" ≠ "va" ∧ "vc" ≠ "vb" ∧ "vd" ≠ "va" ∧ "vd" ≠ "vb" ∧ "vd" ≠ "vc" ∧
       "ve" ≠ "va" ∧ "ve" ≠ "vb" ∧ "ve" ≠ "vc" ∧ "ve" ≠ "vd" ∧
       "vf" ≠ "va" ∧ "vf" ≠ "vb" ∧ "vf" ≠ "vc" ∧ "vf" ≠ "vd" ∧ "vf" ≠ "ve") ∧
      (∀ v ∈ ["va", "vb", "vc", "vd", "ve", "vf"],
         v ≠ "es-MX-DaliaNeural" ∧ v ≠ "es-ES-AlvaroNeural"))) ∧
    (recordUses default_obj ["va", "vb", "vc", "vd", "ve", "vf"] =
      some (("favorites", Json.arr
              [Json.str "vf", Json.str "ve", Json.str "vd", Json.str "vc", Json.str "vb"]) ::
            ("last_voice", Json.str "vf") :: default_tail) ∧
     [Json.str "vf", Json.str "ve", Json.str "vd", Json.str "vc", Json.str "vb"].length = 5) :=
  ⟨by decide, recordUses_six_new_voices "va" "vb" "vc" "vd" "ve" "vf" (by decide)⟩
